import Mathlib

/-!
# Package `app` (src/app.go)

A shallow embedding of the package-level state of `app.go` (`Loggers`, `driver`,
`components`) and of its exported functions as explicit state-passing functions.

* A Go panic is the `Except.error` branch; the package state that a panic leaves
  behind is returned next to it.
* The driver and the loggers are external collaborators.  A driver is a record of
  the answers its methods give (an answer may depend on every call made so far);
  every call that the package makes on a driver or on a logger is appended to
  `State.trace`, so that "which calls, how often, in which order" can be stated.
  Calls that a driver makes back into the package from inside one of its own
  methods are outside the model, with one exception: `Driver.Run` is told which
  driver the package holds while it executes, which is what such calls reach.
* `Factory`, `NewFactory` and `ConcurrentFactory` are not part of `app.go`; they
  are modelled from the specification (section 4.1).
-/

namespace App

/-! ## Values -/

/-- Go `error` values that the package sees. `wrap cause msg` is
`errors.Wrap(cause, msg)`; `other` stands for any error made by a driver or by the
operating system. -/
inductive Error
  | InvalidComponentKind
  | ComponentNotRegistered
  | ComponentNotFound
  | other (msg : String)
  | wrap (cause : Error) (msg : String)
  deriving DecidableEq, Repr

/-- Identity of a component object: allocated by the application (`app n`) or by a
constructor of the factory (`made n`, the `n`-th construction). -/
inductive Ref
  | app (n : Nat)
  | made (n : Nat)
  deriving DecidableEq, Repr

/-- A `Compo` interface value: a pointer to a struct of the named type
(`&tests.Foo{}`) or a struct value (`tests.NoPointerCompo{}`). -/
inductive Compo
  | ptr (typ : String) (ref : Ref)
  | val (typ : String)
  deriving DecidableEq, Repr

/-- The qualified type name of a component. -/
def Compo.typ : Compo → String
  | .ptr t _ => t
  | .val t => t

/-- An `interface{}` argument. -/
inductive Any
  | null
  | str (s : String)
  | int (n : Int)
  deriving DecidableEq, Repr

/-- A `func()` value. `render c` is the one function literal of `app.go`,
`func() { driver.Render(c) }` inside `Render`; `foreign n` is a closure made by
code outside the package. -/
inductive Func
  | render (c : Compo)
  | foreign (n : Nat)
  deriving DecidableEq, Repr

structure WindowConfig where
  DefaultURL : String
  deriving DecidableEq, Repr

structure PageConfig where
  DefaultURL : String
  deriving DecidableEq, Repr

structure MenuConfig where
  DefaultURL : String
  deriving DecidableEq, Repr

structure StatusMenuConfig where
  Text : String
  deriving DecidableEq, Repr

structure FilePanelConfig where
  deriving DecidableEq, Repr

structure SaveFilePanelConfig where
  deriving DecidableEq, Repr

structure NotificationConfig where
  deriving DecidableEq, Repr

/-- Interface values returned by a driver: `none` is Go's `nil`. -/
abbrev Window := Option Nat
abbrev Menu := Option Nat
abbrev StatusMenu := Option Nat
abbrev DockTile := Option Nat
abbrev Elem := Option Nat

/-! ## The component factory (modelled from the specification) -/

/-- Modelled from the spec: the identifier of a component type, "derived
deterministically from the component's fully-qualified type name,
case-normalized" (section 3); the scenario of section 8 maps "pkg.Foo" to
"pkg.foo". The function that computes it is not in src/. -/
def normalize (typeName : String) : String :=
  ⟨typeName.data.map Char.toLower⟩

/-- Modelled from the spec: the `Factory` behind `components` (its implementation
is not in src/). `descriptors` is the Component Descriptor table (identifier and
the type its constructor builds), `index` the Instance-to-Identifier Index,
`made` the number of instances constructed so far. -/
structure Factory where
  descriptors : List (String × String)
  index : List (Compo × String)
  made : Nat
  deriving DecidableEq, Repr

/-- Modelled from the spec: `NewFactory()` (not in src/), the empty factory. -/
def NewFactory : Factory :=
  { descriptors := [], index := [], made := 0 }

/-- Modelled from the spec: `ConcurrentFactory` (not in src/). Section 4.2: "The
decorator changes no observable behavior of the wrapped component"; a lock has no
meaning in a sequential model. -/
def ConcurrentFactory (f : Factory) : Factory := f

/-- Modelled from the spec: `Register(prototype)` (section 4.1, not in src/). It
fails with `InvalidComponentKind` for a prototype passed by value and leaves the
registry unchanged; otherwise it stores the descriptor under the normalized
identifier, replacing an earlier one (last registration wins, section 9), and
returns the identifier. -/
def Factory.Register (f : Factory) (c : Compo) : Except Error (String × Factory) :=
  match c with
  | .val _ => .error .InvalidComponentKind
  | .ptr t _ =>
    .ok (normalize t,
      { f with descriptors :=
          (normalize t, t) :: f.descriptors.filter (fun d => d.1 != normalize t) })

/-- Modelled from the spec: `NewComponent(identifier)` (section 4.1, not in src/).
It fails with `ComponentNotRegistered` when no descriptor is stored under the
(case-insensitive) identifier; otherwise it constructs a fresh instance, enters it
in the Instance-to-Identifier Index and returns it with the normalized
identifier. -/
def Factory.NewComponent (f : Factory) (name : String) :
    Except Error (Compo × String × Factory) :=
  match f.descriptors.lookup (normalize name) with
  | none => .error .ComponentNotRegistered
  | some t =>
    .ok (.ptr t (.made f.made), normalize name,
      { f with index := (.ptr t (.made f.made), normalize name) :: f.index,
               made := f.made + 1 })

/-- Modelled from the spec: `Identifier(instance)` (section 4.1, not in src/), the
reverse lookup; `ComponentNotFound` for an instance this factory never
constructed. -/
def Factory.Identifier (f : Factory) (c : Compo) : Except Error String :=
  match f.index.lookup c with
  | none => .error .ComponentNotFound
  | some id => .ok id

/-- Every instance in the index was constructed before the current count. -/
def Factory.WF (f : Factory) : Prop :=
  ∀ t n id, (Compo.ptr t (.made n), id) ∈ f.index → n < f.made

/-! ## Drivers, loggers and the trace of calls made on them -/

/-- A method call on a driver, with its arguments. -/
inductive DriverCall
  | Run (f : Factory)
  | AppName
  | Resources (path : List String)
  | Storage (path : List String)
  | NewWindow (c : WindowConfig)
  | NewPage (c : PageConfig)
  | NewContextMenu (c : MenuConfig)
  | Render (c : Compo)
  | ElemByCompo (c : Compo)
  | NewFilePanel (c : FilePanelConfig)
  | NewSaveFilePanel (c : SaveFilePanelConfig)
  | NewShare (v : Any)
  | NewNotification (c : NotificationConfig)
  | MenuBar
  | NewStatusMenu (c : StatusMenuConfig)
  | Dock
  | CallOnUIGoroutine (f : Func)
  deriving DecidableEq, Repr

/-- A method call on a logger, with its arguments. -/
inductive LoggerCall
  | Log (format : String) (v : List Any)
  | Debug (format : String) (v : List Any)
  | WhenDebug (f : Func)
  deriving DecidableEq, Repr

/-- One entry of the trace: a call on the driver `id`, a call on the logger `id`,
or the execution of the body of the external closure `n`. -/
inductive Event
  | driver (id : Nat) (call : DriverCall)
  | logger (id : Nat) (call : LoggerCall)
  | ran (n : Nat)
  deriving DecidableEq, Repr

/-- A non-nil `Driver` interface value: its identity and the value each method
returns, given the calls made so far. Methods whose result `app.go` never reads
(`NewPage`, `Render`, `NewFilePanel`, `NewSaveFilePanel`, `NewShare`,
`NewNotification`, `CallOnUIGoroutine`) have no field.

`Run` executes for the life of the application and calls back into the package
while it does (the `OnRun` hook of the test driver calls `RunningDriver()`,
`Name()`, `NewWindow`, ...). Its second argument is therefore the identity of the
driver that the package variable `driver` holds while `Run` executes (`none` for
nil): its answer may depend on it. -/
structure Driver where
  id : Nat
  Run : List Event → Option Nat → Factory → Option Error
  AppName : List Event → String
  Resources : List Event → List String → String
  Storage : List Event → List String → String
  NewWindow : List Event → WindowConfig → Window × Option Error
  NewContextMenu : List Event → MenuConfig → Menu × Option Error
  ElemByCompo : List Event → Compo → Elem
  MenuBar : List Event → Menu × Option Error
  NewStatusMenu : List Event → StatusMenuConfig → StatusMenu × Option Error
  Dock : List Event → DockTile × Option Error

/-- A non-nil `Logger` interface value, known by its identity. -/
abbrev Logger := Nat

/-- Why a call panicked: a method call on the nil `driver`, or `panic(err)`. -/
inductive Panic
  | nilDriver
  | value (err : Error)
  deriving DecidableEq, Repr

/-! ## Package state -/

/-- The package-level variables of `app.go` and the trace of calls made so far. -/
structure State where
  Loggers : List Logger
  driver : Option Driver
  components : Factory
  trace : List Event

/-- Append one call to the trace. -/
def State.record (s : State) (e : Event) : State :=
  { s with trace := s.trace ++ [e] }

/-- The state after `init()`: no logger, a nil driver, and
`components = ConcurrentFactory(NewFactory())`. (The event and action registries
that `init()` also creates are not used by the functions of `app.go` and are left
out.) -/
def init : State :=
  { Loggers := [], driver := none, components := ConcurrentFactory NewFactory, trace := [] }

/-! ## The functions of `app.go` -/

/-- `Import`: register the component, panic with the wrapped error on failure. -/
def Import (c : Compo) (s : State) : Except Panic Unit × State :=
  match s.components.Register c with
  | .error err => (.error (.value (.wrap err "import component failed")), s)
  | .ok (_, f) => (.ok (), { s with components := f })

/-- `Run`: `driver = d; return driver.Run(components)`. The call is made in the
state `s1` in which `d` is already stored: the receiver is read from the variable,
and `Run` executes with the variable holding `s1.driver`. -/
def Run (d : Option Driver) (s : State) : Except Panic (Option Error) × State :=
  let s1 := { s with driver := d }
  match s1.driver with
  | none => (.error .nilDriver, s1)
  | some drv =>
    (.ok (drv.Run s1.trace (s1.driver.map Driver.id) s1.components),
      s1.record (.driver drv.id (.Run s1.components)))

/-- `Name`: `return driver.AppName()`. -/
def Name (s : State) : Except Panic String × State :=
  match s.driver with
  | none => (.error .nilDriver, s)
  | some drv => (.ok (drv.AppName s.trace), s.record (.driver drv.id .AppName))

/-- `Resources`: `return driver.Resources(path...)`. -/
def Resources (path : List String) (s : State) : Except Panic String × State :=
  match s.driver with
  | none => (.error .nilDriver, s)
  | some drv => (.ok (drv.Resources s.trace path), s.record (.driver drv.id (.Resources path)))

/-- `Storage`: `return driver.Storage(path...)`. -/
def Storage (path : List String) (s : State) : Except Panic String × State :=
  match s.driver with
  | none => (.error .nilDriver, s)
  | some drv => (.ok (drv.Storage s.trace path), s.record (.driver drv.id (.Storage path)))

/-- `NewWindow`: `w, _ := driver.NewWindow(c); return w`. -/
def NewWindow (c : WindowConfig) (s : State) : Except Panic Window × State :=
  match s.driver with
  | none => (.error .nilDriver, s)
  | some drv => (.ok (drv.NewWindow s.trace c).1, s.record (.driver drv.id (.NewWindow c)))

/-- `NewPage`: `driver.NewPage(c)`. -/
def NewPage (c : PageConfig) (s : State) : Except Panic Unit × State :=
  match s.driver with
  | none => (.error .nilDriver, s)
  | some drv => (.ok (), s.record (.driver drv.id (.NewPage c)))

/-- `NewContextMenu`: `m, _ := driver.NewContextMenu(c); return m`. -/
def NewContextMenu (c : MenuConfig) (s : State) : Except Panic Menu × State :=
  match s.driver with
  | none => (.error .nilDriver, s)
  | some drv =>
    (.ok (drv.NewContextMenu s.trace c).1, s.record (.driver drv.id (.NewContextMenu c)))

/-- `CallOnUIGoroutine`: `driver.CallOnUIGoroutine(f)`. -/
def CallOnUIGoroutine (f : Func) (s : State) : Except Panic Unit × State :=
  match s.driver with
  | none => (.error .nilDriver, s)
  | some drv => (.ok (), s.record (.driver drv.id (.CallOnUIGoroutine f)))

/-- `Render`: `CallOnUIGoroutine(func() { driver.Render(c) })`. -/
def Render (c : Compo) (s : State) : Except Panic Unit × State :=
  CallOnUIGoroutine (.render c) s

/-- The body of the function literal in `Render`: `driver.Render(c)`, with the
package variable `driver` read when the body runs. -/
def renderBody (c : Compo) (s : State) : Except Panic Unit × State :=
  match s.driver with
  | none => (.error .nilDriver, s)
  | some drv => (.ok (), s.record (.driver drv.id (.Render c)))

/-- Executing a `func()` value. An external closure is recorded as having run; what
else it does is outside the package. -/
def Func.call (f : Func) (s : State) : Except Panic Unit × State :=
  match f with
  | .render c => renderBody c s
  | .foreign n => (.ok (), s.record (.ran n))

/-- `ElemByCompo`: `return driver.ElemByCompo(c)`. -/
def ElemByCompo (c : Compo) (s : State) : Except Panic Elem × State :=
  match s.driver with
  | none => (.error .nilDriver, s)
  | some drv => (.ok (drv.ElemByCompo s.trace c), s.record (.driver drv.id (.ElemByCompo c)))

/-- `NewFilePanel`: `driver.NewFilePanel(c)`. -/
def NewFilePanel (c : FilePanelConfig) (s : State) : Except Panic Unit × State :=
  match s.driver with
  | none => (.error .nilDriver, s)
  | some drv => (.ok (), s.record (.driver drv.id (.NewFilePanel c)))

/-- `NewSaveFilePanel`: `driver.NewSaveFilePanel(c)`. -/
def NewSaveFilePanel (c : SaveFilePanelConfig) (s : State) : Except Panic Unit × State :=
  match s.driver with
  | none => (.error .nilDriver, s)
  | some drv => (.ok (), s.record (.driver drv.id (.NewSaveFilePanel c)))

/-- `NewShare`: `driver.NewShare(v)`. -/
def NewShare (v : Any) (s : State) : Except Panic Unit × State :=
  match s.driver with
  | none => (.error .nilDriver, s)
  | some drv => (.ok (), s.record (.driver drv.id (.NewShare v)))

/-- `NewNotification`: `driver.NewNotification(c)`. -/
def NewNotification (c : NotificationConfig) (s : State) : Except Panic Unit × State :=
  match s.driver with
  | none => (.error .nilDriver, s)
  | some drv => (.ok (), s.record (.driver drv.id (.NewNotification c)))

/-- `MenuBar`: `m, _ := driver.MenuBar(); return m`. -/
def MenuBar (s : State) : Except Panic Menu × State :=
  match s.driver with
  | none => (.error .nilDriver, s)
  | some drv => (.ok (drv.MenuBar s.trace).1, s.record (.driver drv.id .MenuBar))

/-- `NewStatusMenu`: `s, _ := driver.NewStatusMenu(c); return s`. -/
def NewStatusMenu (c : StatusMenuConfig) (s : State) : Except Panic StatusMenu × State :=
  match s.driver with
  | none => (.error .nilDriver, s)
  | some drv =>
    (.ok (drv.NewStatusMenu s.trace c).1, s.record (.driver drv.id (.NewStatusMenu c)))

/-- `Dock`: `d, _ := driver.Dock(); return d`. -/
def Dock (s : State) : Except Panic DockTile × State :=
  match s.driver with
  | none => (.error .nilDriver, s)
  | some drv => (.ok (drv.Dock s.trace).1, s.record (.driver drv.id .Dock))

/-- `Log`: `for _, l := range Loggers { l.Log(format, v...) }`. -/
def Log (format : String) (v : List Any) (s : State) : State :=
  s.Loggers.foldl (fun st l => st.record (.logger l (.Log format v))) s

/-- `Debug`: `for _, l := range Loggers { l.Debug(format, v...) }`. -/
def Debug (format : String) (v : List Any) (s : State) : State :=
  s.Loggers.foldl (fun st l => st.record (.logger l (.Debug format v))) s

/-- `WhenDebug`: `for _, l := range Loggers { l.WhenDebug(f) }`. -/
def WhenDebug (f : Func) (s : State) : State :=
  s.Loggers.foldl (fun st l => st.record (.logger l (.WhenDebug f))) s

/-! ## Sequences of calls -/

/-- Several `Import` calls one after the other; a panic ends the sequence. -/
def importAll : List Compo → State → Except Panic Unit × State
  | [], s => (.ok (), s)
  | c :: cs, s =>
    match Import c s with
    | (.ok _, s1) => importAll cs s1
    | (.error p, s1) => (.error p, s1)

/-! ## `CSSResources` -/

/-- The part of `os.FileInfo` that the walker reads. -/
structure FileInfo where
  IsDir : Bool
  deriving DecidableEq, Repr

/-- One invocation `walkFn(path, info, err)` made by `filepath.Walk`:
`entry` when `err == nil` (then `info` is not nil), `failed` when `err != nil`. -/
inductive Visit
  | entry (path : String) (info : FileInfo)
  | failed (path : String) (info : Option FileInfo) (err : Error)
  deriving DecidableEq, Repr

/-- Go's `os.IsPathSeparator` on Unix. -/
def isPathSeparator (c : Char) : Bool := c == '/'

/-- The loop of Go's `filepath.Ext`:
`for i := len(path) - 1; i >= 0 && !os.IsPathSeparator(path[i]); i--`
returning `path[i:]` at the first `.`; `extLoop path (i + 1)` is the iteration at
index `i`. -/
def extLoop (path : List Char) : Nat → List Char
  | 0 => []
  | i + 1 =>
    if isPathSeparator (path.getD i '/') then []
    else if path.getD i '/' = '.' then path.drop i
    else extLoop path i

/-- Go's `filepath.Ext` (standard library): the suffix beginning at the final dot
in the final element of `path`, empty when there is none. -/
def Ext (path : String) : String :=
  ⟨extLoop path.data path.data.length⟩

/-- The closure `walker` of `CSSResources`; the captured variable `css` is passed
in and returned. -/
def walker (css : List String) : Visit → List String × Option Error
  | .failed _ _ err => (css, some err)
  | .entry path info =>
    if info.IsDir then (css, none)
    else if Ext path != ".css" then (css, none)
    else (css ++ [path], none)

/-- Go's `filepath.Walk` (standard library) seen from its callback: the file
system fixes the invocations that are made as long as the callback returns nil;
`Walk` makes them in order and stops at the first one for which the callback
returns an error, which it returns. (`filepath.SkipDir` is not modelled: `walker`
returns only errors it was handed, which come from the operating system.) -/
def Walk {α : Type} (walkFn : α → Visit → α × Option Error) :
    List Visit → α → α × Option Error
  | [], acc => (acc, none)
  | v :: rest, acc =>
    match walkFn acc v with
    | (acc1, none) => Walk walkFn rest acc1
    | (acc1, some e) => (acc1, some e)

/-- `CSSResources`: `filepath.Walk(Resources("css"), walker); return css`. The file
system `fs` gives, for a root, the invocations `filepath.Walk` makes. -/
def CSSResources (fs : String → List Visit) (s : State) :
    Except Panic (List String) × State :=
  match Resources ["css"] s with
  | (.error p, s1) => (.error p, s1)
  | (.ok root, s1) => (.ok (Walk walker (fs root) []).1, s1)

/-- The file extension of the path is exactly ".css", said without `Ext`: the
path ends in the four characters `.css` (then its final dot is the one before
`css`, and no separator follows it). -/
def hasCssExt (path : String) : Bool :=
  path.data.drop (path.data.length - 4) == ['.', 'c', 's', 's']

/-- The path of a visited entry that is not a directory and whose extension is
exactly ".css" (the wording of the claim about `CSSResources`; it does not use
`Ext`). -/
def cssPath : Visit → Option String
  | .entry path info => if !info.IsDir && hasCssExt path then some path else none
  | .failed _ _ _ => none

/-- The invocation reports no walk error. -/
def Visit.isEntry : Visit → Bool
  | .entry _ _ => true
  | .failed _ _ _ => false

/-! ## The UI goroutine -/

/-- The closures handed to `driver.CallOnUIGoroutine`, in submission order. -/
def submitted (trace : List Event) : List Func :=
  trace.filterMap fun e =>
    match e with
    | .driver _ (.CallOnUIGoroutine f) => some f
    | _ => none

/-- The calls `driver.Render(c)` made so far, in order, with the receiving driver. -/
def renders (trace : List Event) : List (Nat × Compo) :=
  trace.filterMap fun e =>
    match e with
    | .driver id (.Render c) => some (id, c)
    | _ => none

/-- The event is a submission of a closure through `CallOnUIGoroutine`. -/
def Event.isSubmission : Event → Bool
  | .driver _ (.CallOnUIGoroutine _) => true
  | _ => false

/-- A driver whose `CallOnUIGoroutine` executes the submitted closures one at a
time in submission order: `done` closures of `submitted app.trace` have been
executed, the others are pending. -/
structure UI where
  app : State
  done : Nat

/-- Number of submitted closures not yet executed. -/
def UI.pending (u : UI) : Nat :=
  (submitted u.app.trace).length - u.done

/-- The UI goroutine executes the oldest pending closure, if there is one. -/
def UI.step (u : UI) : UI :=
  match (submitted u.app.trace)[u.done]? with
  | none => u
  | some f => { app := (f.call u.app).2, done := u.done + 1 }

/-- What happens next: some goroutine calls `Render(c)`, or the UI goroutine takes
one step. -/
inductive Action
  | render (c : Compo)
  | tick
  deriving DecidableEq, Repr

/-- The component of a `Render` call. -/
def Action.compo : Action → Option Compo
  | .render c => some c
  | .tick => none

/-- One action. -/
def UI.act (u : UI) : Action → UI
  | .render c => { u with app := (Render c u.app).2 }
  | .tick => u.step

/-- A schedule of actions, in order. -/
def UI.run (u : UI) (sched : List Action) : UI :=
  sched.foldl UI.act u

/-- The UI goroutine takes `fuel` steps. -/
def UI.drain (u : UI) : Nat → UI
  | 0 => u
  | fuel + 1 => u.step.drain fuel

/-- Where the UI model stands after `Render` calls from the state `s` with the
driver `d`: the closures of `ran` have been executed, those of `waiting` are
pending, and nothing else has happened. -/
def UI.After (s : State) (d : Driver) (ran waiting : List Compo) (u : UI) : Prop :=
  u.app.driver = some d ∧
  submitted u.app.trace = submitted s.trace ++ (ran ++ waiting).map Func.render ∧
  u.done = (submitted s.trace).length + ran.length ∧
  renders u.app.trace = renders s.trace ++ ran.map (fun c => (d.id, c)) ∧
  u.app.trace.length = s.trace.length + 2 * ran.length + waiting.length

/-! ## Calls of the exported functions -/

/-- A call of an exported function of the package, or the execution of a closure
by whoever holds it (`call`). A call that panics is taken as recovered by its
caller: the sequence goes on in the state the panic left. -/
inductive Op
  | Import (c : Compo)
  | Run (d : Option Driver)
  | Name
  | Resources (path : List String)
  | CSSResources (fs : String → List Visit)
  | Storage (path : List String)
  | NewWindow (c : WindowConfig)
  | NewPage (c : PageConfig)
  | NewContextMenu (c : MenuConfig)
  | Render (c : Compo)
  | ElemByCompo (c : Compo)
  | NewFilePanel (c : FilePanelConfig)
  | NewSaveFilePanel (c : SaveFilePanelConfig)
  | NewShare (v : Any)
  | NewNotification (c : NotificationConfig)
  | MenuBar
  | NewStatusMenu (c : StatusMenuConfig)
  | Dock
  | CallOnUIGoroutine (f : Func)
  | Log (format : String) (v : List Any)
  | Debug (format : String) (v : List Any)
  | WhenDebug (f : Func)
  | call (f : Func)

/-- The package state after the call (the result is dropped). -/
def Op.exec : Op → State → State
  | .Import c, s => (App.Import c s).2
  | .Run d, s => (App.Run d s).2
  | .Name, s => (App.Name s).2
  | .Resources path, s => (App.Resources path s).2
  | .CSSResources fs, s => (App.CSSResources fs s).2
  | .Storage path, s => (App.Storage path s).2
  | .NewWindow c, s => (App.NewWindow c s).2
  | .NewPage c, s => (App.NewPage c s).2
  | .NewContextMenu c, s => (App.NewContextMenu c s).2
  | .Render c, s => (App.Render c s).2
  | .ElemByCompo c, s => (App.ElemByCompo c s).2
  | .NewFilePanel c, s => (App.NewFilePanel c s).2
  | .NewSaveFilePanel c, s => (App.NewSaveFilePanel c s).2
  | .NewShare v, s => (App.NewShare v s).2
  | .NewNotification c, s => (App.NewNotification c s).2
  | .MenuBar, s => (App.MenuBar s).2
  | .NewStatusMenu c, s => (App.NewStatusMenu c s).2
  | .Dock, s => (App.Dock s).2
  | .CallOnUIGoroutine f, s => (App.CallOnUIGoroutine f s).2
  | .Log format v, s => App.Log format v s
  | .Debug format v, s => App.Debug format v s
  | .WhenDebug f, s => App.WhenDebug f s
  | .call f, s => (f.call s).2

/-- The call is `Run(nil)`. -/
def Op.isRunNil : Op → Bool
  | .Run none => true
  | _ => false

/-- The call executes the function literal of `Render`. -/
def Op.isRenderBody : Op → Bool
  | .call (.render _) => true
  | _ => false

/-- A sequence of calls, in order. -/
def execAll (ops : List Op) (s : State) : State :=
  ops.foldl (fun st o => o.exec st) s

/-! ## Concrete instances -/

/-- A driver with fixed answers, in the manner of the test driver of
app_test.go: `runErr` is what `Run` returns, `elemErr` the error returned next to
every created element. -/
def testDriver (id : Nat) (runErr elemErr : Option Error) : Driver :=
  { id := id
    Run := fun _ _ _ => runErr
    AppName := fun _ => "test"
    Resources := fun _ path => String.intercalate "/" ("resources" :: path)
    Storage := fun _ path => String.intercalate "/" ("storage" :: path)
    NewWindow := fun _ _ => (some 1, elemErr)
    NewContextMenu := fun _ _ => (some 2, elemErr)
    ElemByCompo := fun _ _ => some 2
    MenuBar := fun _ => (some 3, elemErr)
    NewStatusMenu := fun _ _ => (some 4, elemErr)
    Dock := fun _ => (some 5, elemErr) }

/-- The prototype `&tests.Foo{}`. -/
def fooProto : Compo := .ptr "tests.Foo" (.app 0)

/-- The prototype `&tests.Bar{}`. -/
def barProto : Compo := .ptr "tests.Bar" (.app 1)

/-- The prototype `tests.NoPointerCompo{}`. -/
def noPointerProto : Compo := .val "tests.NoPointerCompo"

/-- The state of `TestApp` once the driver runs: `Foo` and `Bar` imported, then
`Run` with a driver that reports no error. -/
def running : State :=
  (Run (some (testDriver 1 none none)) (importAll [fooProto, barProto] init).2).2

/-- The file tree that `TestApp` creates under `resources/css`, as the
invocations of the walk. -/
def testTree (root : String) : List Visit :=
  [ .entry root { IsDir := true },
    .entry (root ++ "/sub") { IsDir := true },
    .entry (root ++ "/sub/sub.css") { IsDir := false },
    .entry (root ++ "/test.css") { IsDir := false },
    .entry (root ++ "/test.scss") { IsDir := false } ]

/-- A file tree with several dots in its names, as the invocations of the walk
(names in lexical order): a file `README.md`, a file `a.min.css`, a directory
`old.css` holding `print.css` and `x.scss`, a file `style.css.bak`, a file
`theme.css` and a file `css` without a dot. -/
def dottedTree (root : String) : List Visit :=
  [ .entry root { IsDir := true },
    .entry (root ++ "/README.md") { IsDir := false },
    .entry (root ++ "/a.min.css") { IsDir := false },
    .entry (root ++ "/css") { IsDir := false },
    .entry (root ++ "/old.css") { IsDir := true },
    .entry (root ++ "/old.css/print.css") { IsDir := false },
    .entry (root ++ "/old.css/x.scss") { IsDir := false },
    .entry (root ++ "/style.css.bak") { IsDir := false },
    .entry (root ++ "/theme.css") { IsDir := false } ]

/-- The walk of a root that does not exist: one invocation, with the error. -/
def missingTree (root : String) : List Visit :=
  [ .failed root none (.other "no such file or directory") ]

/-- A state whose current driver returns `elemErr` next to every element it
creates. -/
def withElemErr (elemErr : Option Error) : State :=
  { init with driver := some (testDriver 1 none elemErr) }

/-- The prototype `&tests.FOO{}` of a second type, whose name differs from
`tests.Foo` only by case. -/
def capsProto : Compo := .ptr "tests.FOO" (.app 2)

/-- The state after `Import(&tests.Foo{})` and then `Import(&tests.FOO{})`. -/
def collided : State :=
  (importAll [fooProto, capsProto] init).2

/-! ## Basic facts -/

@[simp] theorem record_trace (s : State) (e : Event) :
    (s.record e).trace = s.trace ++ [e] := rfl

@[simp] theorem record_driver (s : State) (e : Event) :
    (s.record e).driver = s.driver := rfl

@[simp] theorem record_components (s : State) (e : Event) :
    (s.record e).components = s.components := rfl

@[simp] theorem record_Loggers (s : State) (e : Event) :
    (s.record e).Loggers = s.Loggers := rfl

/-- A loop that makes one call per logger appends exactly these calls, in list
order, and changes nothing else. -/
theorem foldl_record (f : Logger → Event) (ls : List Logger) (s : State) :
    ls.foldl (fun st l => st.record (f l)) s = { s with trace := s.trace ++ ls.map f } := by
  induction ls generalizing s with
  | nil => simp
  | cons l ls ih =>
    rw [List.foldl_cons, ih]
    simp [State.record, List.append_assoc]

theorem renders_append (a b : List Event) : renders (a ++ b) = renders a ++ renders b := by
  simp [renders]

theorem submitted_append (a b : List Event) :
    submitted (a ++ b) = submitted a ++ submitted b := by
  simp [submitted]

/-- Only the function literal of `Render` makes the call `driver.Render`. -/
theorem renders_exec (o : Op) (s : State) (h : o.isRenderBody = false) :
    renders (o.exec s).trace = renders s.trace := by
  cases o with
  | Import c =>
    simp only [Op.exec, Import]
    cases s.components.Register c <;> rfl
  | Run d => cases d <;> simp [Op.exec, Run, renders_append, renders]
  | CSSResources fs =>
    simp only [Op.exec, CSSResources, Resources]
    cases s.driver <;> simp [renders_append, renders]
  | Log format v => simp [Op.exec, Log, foldl_record, renders_append, renders]
  | Debug format v => simp [Op.exec, Debug, foldl_record, renders_append, renders]
  | WhenDebug f => simp [Op.exec, WhenDebug, foldl_record, renders_append, renders]
  | call f =>
    cases f with
    | render c => simp [Op.isRenderBody] at h
    | foreign n => simp [Op.exec, Func.call, renders_append, renders]
  | _ =>
    simp only [Op.exec, Name, Resources, Storage, NewWindow, NewPage, NewContextMenu, Render,
      CallOnUIGoroutine, ElemByCompo, NewFilePanel, NewSaveFilePanel, NewShare,
      NewNotification, MenuBar, NewStatusMenu, Dock]
    cases s.driver <;> simp [renders_append, renders]

/-- No call other than `Run` writes the variable `driver`, and `Run` with a
non-nil driver leaves it non-nil. -/
theorem driver_exec (o : Op) (s : State) (ho : o.isRunNil = false)
    (h : s.driver.isSome = true) :
    (o.exec s).driver.isSome = true := by
  cases o with
  | Import c =>
    simp only [Op.exec, Import]
    cases s.components.Register c <;> exact h
  | Run d =>
    cases d with
    | none => simp [Op.isRunNil] at ho
    | some d => simp [Op.exec, Run]
  | CSSResources fs =>
    simp only [Op.exec, CSSResources, Resources]
    cases hd : s.driver <;> simp [hd] at h ⊢
  | Log format v => simpa [Op.exec, Log, foldl_record] using h
  | Debug format v => simpa [Op.exec, Debug, foldl_record] using h
  | WhenDebug f => simpa [Op.exec, WhenDebug, foldl_record] using h
  | call f =>
    cases f with
    | render c =>
      simp only [Op.exec, Func.call, renderBody]
      cases hd : s.driver <;> simp [hd] at h ⊢
    | foreign n => simpa [Op.exec, Func.call] using h
  | _ =>
    simp only [Op.exec, Name, Resources, Storage, NewWindow, NewPage, NewContextMenu, Render,
      CallOnUIGoroutine, ElemByCompo, NewFilePanel, NewSaveFilePanel, NewShare,
      NewNotification, MenuBar, NewStatusMenu, Dock]
    cases hd : s.driver <;> simp [hd] at h ⊢

theorem driver_execAll (ops : List Op) (s : State) (ho : ∀ o ∈ ops, o.isRunNil = false)
    (h : s.driver.isSome = true) :
    (execAll ops s).driver.isSome = true := by
  induction ops generalizing s with
  | nil => exact h
  | cons o ops ih =>
    exact ih (o.exec s) (fun o1 h1 => ho o1 (List.mem_cons_of_mem _ h1))
      (driver_exec o s (ho o (List.mem_cons_self _ _)) h)

/-! ## `Import` and `Run` -/

/-- C1: `Import(c)` panics exactly when `Register(c)` on the package-level factory
returns an error (the panic value is that error wrapped, the package state is
unchanged), and returns normally exactly when `Register` succeeds. Importing the
value prototype `tests.NoPointerCompo{}` panics; importing `&tests.Foo{}` does
not. -/
theorem Import_panics_iff_Register_fails (c : Compo) (s : State) :
    ((∃ p, (Import c s).1 = .error p) ↔ ∃ e, s.components.Register c = .error e) ∧
    ((Import c s).1 = .ok () ↔ ∃ r, s.components.Register c = .ok r) ∧
    (∀ e, s.components.Register c = .error e →
      Import c s = (.error (.value (.wrap e "import component failed")), s)) ∧
    (Import noPointerProto s).1 =
      .error (.value (.wrap .InvalidComponentKind "import component failed")) ∧
    (Import fooProto s).1 = .ok () := by
  refine ⟨?_, ?_, ?_, rfl, rfl⟩
  · cases h : s.components.Register c <;> simp [Import, h]
  · cases h : s.components.Register c <;> simp [Import, h]
  · intro e h
    simp [Import, h]

/-- C3: `Run(d)` makes exactly one call on the driver, `d.Run(components)`, with
the package-level factory, the variable that `Import` writes the registry into,
and returns exactly what `d.Run` returned: an error if and only if `d.Run`
returned one, and then the same error. -/
theorem Run_returns_driver_result (d : Driver) (s : State) (c : Compo) :
    (Run (some d) s).1 = .ok (d.Run s.trace (some d.id) s.components) ∧
    (Run (some d) s).2.trace = s.trace ++ [.driver d.id (.Run s.components)] ∧
    (∀ e, (Run (some d) s).1 = .ok (some e) ↔
      d.Run s.trace (some d.id) s.components = some e) ∧
    ((Run (some d) s).1 = .ok none ↔ d.Run s.trace (some d.id) s.components = none) ∧
    (∀ id f, s.components.Register c = .ok (id, f) →
      (Import c s).2.components = f ∧
      (Run (some d) (Import c s).2).2.trace = s.trace ++ [.driver d.id (.Run f)]) := by
  refine ⟨rfl, rfl, ?_, ?_, ?_⟩
  · intro e
    simp [Run]
  · simp [Run]
  · intro id f h
    simp [Import, h, Run]

/-! ## Calls routed through the UI goroutine, and calls that are not -/

/-- C2: with a driver set, `Render(c)` makes exactly one call on the driver, the
submission of one closure to `CallOnUIGoroutine`, and no call `driver.Render`;
executing that closure makes exactly the call `driver.Render(c)`, once, on the
driver then current; and no call of the package other than the execution of that
closure makes a call `driver.Render`. (Before any `Run`, with a nil driver,
`Render` panics and calls nothing.) -/
theorem Render_submits_one_closure (c : Compo) (s : State) (d : Driver)
    (h : s.driver = some d) :
    Render c s = (.ok (), s.record (.driver d.id (.CallOnUIGoroutine (.render c)))) ∧
    renders (Render c s).2.trace = renders s.trace ∧
    submitted (Render c s).2.trace = submitted s.trace ++ [.render c] ∧
    (∀ s1 d1, s1.driver = some d1 →
      (Func.render c).call s1 = (.ok (), s1.record (.driver d1.id (.Render c))) ∧
      renders ((Func.render c).call s1).2.trace = renders s1.trace ++ [(d1.id, c)]) ∧
    (∀ (o : Op) (s1 : State), o.isRenderBody = false →
      renders (o.exec s1).trace = renders s1.trace) ∧
    (∀ s0, s0.driver = none → Render c s0 = (.error .nilDriver, s0)) := by
  refine ⟨?_, ?_, ?_, ?_, ?_, ?_⟩
  · simp [Render, CallOnUIGoroutine, h]
  · simp [Render, CallOnUIGoroutine, h, renders_append, renders]
  · simp [Render, CallOnUIGoroutine, h, submitted_append, submitted]
  · intro s1 d1 h1
    simp [Func.call, renderBody, h1, renders_append, renders]
  · intro o s1 ho
    exact renders_exec o s1 ho
  · intro s0 h0
    simp [Render, CallOnUIGoroutine, h0]

/-- Instance of C2 in the state of `TestApp`, for `&tests.Foo{}`. -/
theorem Render_submits_one_closure_witness :
    running.driver = some (testDriver 1 none none) ∧
    (Render fooProto running).2.trace =
      running.trace ++ [.driver 1 (.CallOnUIGoroutine (.render fooProto))] ∧
    ((Func.render fooProto).call (Render fooProto running).2).2.trace =
      running.trace ++ [.driver 1 (.CallOnUIGoroutine (.render fooProto)),
        .driver 1 (.Render fooProto)] :=
  ⟨rfl,
   congrArg (fun r => r.2.trace)
     (Render_submits_one_closure fooProto running (testDriver 1 none none) rfl).1,
   by decide⟩

/-- C5, as stated, fails: in the state of `TestApp`, `NewWindow` makes the call
`driver.NewWindow` directly, not from a closure submitted through
`CallOnUIGoroutine`. -/
theorem NewWindow_not_dispatched :
    (NewWindow ⟨"tests.foo"⟩ running).2.trace =
      running.trace ++ [.driver 1 (.NewWindow ⟨"tests.foo"⟩)] ∧
    ¬ ∀ e ∈ (NewWindow ⟨"tests.foo"⟩ running).2.trace.drop running.trace.length,
        Event.isSubmission e = true := by
  decide

/-- C5, amended: with a driver set, each of `NewWindow`, `NewPage`,
`NewContextMenu`, `MenuBar`, `NewStatusMenu`, `Dock`, `NewFilePanel`,
`NewSaveFilePanel`, `NewShare` and `NewNotification` makes exactly one call on the
driver, the method of the same name with the same argument, directly; of the
operations that change what is displayed only `Render` goes through
`CallOnUIGoroutine`. -/
theorem creators_call_driver_directly (s : State) (d : Driver) (h : s.driver = some d)
    (wc : WindowConfig) (pc : PageConfig) (mc : MenuConfig) (sc : StatusMenuConfig)
    (fc : FilePanelConfig) (sfc : SaveFilePanelConfig) (nc : NotificationConfig)
    (v : Any) (c : Compo) :
    (NewWindow wc s).2.trace = s.trace ++ [.driver d.id (.NewWindow wc)] ∧
    (NewPage pc s).2.trace = s.trace ++ [.driver d.id (.NewPage pc)] ∧
    (NewContextMenu mc s).2.trace = s.trace ++ [.driver d.id (.NewContextMenu mc)] ∧
    (MenuBar s).2.trace = s.trace ++ [.driver d.id .MenuBar] ∧
    (NewStatusMenu sc s).2.trace = s.trace ++ [.driver d.id (.NewStatusMenu sc)] ∧
    (Dock s).2.trace = s.trace ++ [.driver d.id .Dock] ∧
    (NewFilePanel fc s).2.trace = s.trace ++ [.driver d.id (.NewFilePanel fc)] ∧
    (NewSaveFilePanel sfc s).2.trace = s.trace ++ [.driver d.id (.NewSaveFilePanel sfc)] ∧
    (NewShare v s).2.trace = s.trace ++ [.driver d.id (.NewShare v)] ∧
    (NewNotification nc s).2.trace = s.trace ++ [.driver d.id (.NewNotification nc)] ∧
    (Render c s).2.trace = s.trace ++ [.driver d.id (.CallOnUIGoroutine (.render c))] := by
  simp [NewWindow, NewPage, NewContextMenu, MenuBar, NewStatusMenu, Dock, NewFilePanel,
    NewSaveFilePanel, NewShare, NewNotification, Render, CallOnUIGoroutine, h]

/-- Instance of the amended C5 in the state of `TestApp`. -/
theorem creators_call_driver_directly_witness :
    running.driver = some (testDriver 1 none none) ∧
    (Dock running).2.trace = running.trace ++ [.driver 1 .Dock] :=
  ⟨rfl,
   (creators_call_driver_directly running (testDriver 1 none none) rfl ⟨"tests.foo"⟩
     ⟨"tests.foo"⟩ ⟨"tests.bar"⟩ ⟨"test"⟩ {} {} {} (.str "Hello world") fooProto).2.2.2.2.2.1⟩

/-- C6, as stated, fails: a driver that fails to create the window and one that
succeeds make `NewWindow` return the same result, so no test on the result tells
the caller that the call failed. -/
theorem NewWindow_result_hides_failure :
    (NewWindow ⟨""⟩ (withElemErr (some (.other "simulated")))).1 = .ok (some 1) ∧
    (NewWindow ⟨""⟩ (withElemErr none)).1 = .ok (some 1) ∧
    ¬ ∃ failed : Except Panic Window → Bool, ∀ e : Option Error,
        (failed (NewWindow ⟨""⟩ (withElemErr e)).1 = true ↔ e ≠ none) := by
  refine ⟨rfl, rfl, ?_⟩
  rintro ⟨failed, hf⟩
  have h1 := hf none
  have h2 := hf (some (.other "simulated"))
  have e1 : (NewWindow ⟨""⟩ (withElemErr none)).1 = .ok (some 1) := rfl
  have e2 : (NewWindow ⟨""⟩ (withElemErr (some (.other "simulated")))).1 = .ok (some 1) := rfl
  rw [e1] at h1
  rw [e2] at h2
  simp at h1 h2
  rw [h2] at h1
  exact absurd h1 (by decide)

/-- C6, amended: with a driver set, each of `NewWindow`, `NewContextMenu`,
`MenuBar`, `NewStatusMenu` and `Dock` returns without panicking, and its result is
exactly the element the driver returned; the error the driver returned next to it
is discarded, so the result is the same whether or not the driver reported a
failure. -/
theorem creators_return_driver_element (s : State) (d : Driver) (h : s.driver = some d)
    (wc : WindowConfig) (mc : MenuConfig) (sc : StatusMenuConfig) :
    (NewWindow wc s).1 = .ok (d.NewWindow s.trace wc).1 ∧
    (NewContextMenu mc s).1 = .ok (d.NewContextMenu s.trace mc).1 ∧
    (MenuBar s).1 = .ok (d.MenuBar s.trace).1 ∧
    (NewStatusMenu sc s).1 = .ok (d.NewStatusMenu s.trace sc).1 ∧
    (Dock s).1 = .ok (d.Dock s.trace).1 := by
  simp [NewWindow, NewContextMenu, MenuBar, NewStatusMenu, Dock, h]

/-- Instance of the amended C6 for a driver that fails to create the status
menu. -/
theorem creators_return_driver_element_witness :
    (withElemErr (some (.other "simulated"))).driver =
      some (testDriver 1 none (some (.other "simulated"))) ∧
    (NewStatusMenu ⟨"test"⟩ (withElemErr (some (.other "simulated")))).1 = .ok (some 4) :=
  ⟨rfl,
   (creators_return_driver_element (withElemErr (some (.other "simulated")))
     (testDriver 1 none (some (.other "simulated"))) rfl ⟨""⟩ ⟨""⟩ ⟨"test"⟩).2.2.2.1⟩

/-! ## Loggers -/

/-- C9: `Log(format, v...)` calls `Log(format, v...)` on every logger of
`Loggers` exactly once, in list order, with the same format and arguments, and
does nothing else; `Debug` and `WhenDebug` do the same with the loggers' `Debug`
and `WhenDebug`; with an empty list each of the three changes nothing. -/
theorem Log_calls_every_logger (s : State) (format : String) (v : List Any) (f : Func) :
    Log format v s =
      { s with trace := s.trace ++ s.Loggers.map (fun l => .logger l (.Log format v)) } ∧
    Debug format v s =
      { s with trace := s.trace ++ s.Loggers.map (fun l => .logger l (.Debug format v)) } ∧
    WhenDebug f s =
      { s with trace := s.trace ++ s.Loggers.map (fun l => .logger l (.WhenDebug f)) } ∧
    Log format v { s with Loggers := [] } = { s with Loggers := [] } ∧
    Debug format v { s with Loggers := [] } = { s with Loggers := [] } ∧
    WhenDebug f { s with Loggers := [] } = { s with Loggers := [] } := by
  refine ⟨?_, ?_, ?_, rfl, rfl, rfl⟩
  · exact foldl_record _ _ _
  · exact foldl_record _ _ _
  · exact foldl_record _ _ _

/-! ## The current driver -/

/-- C10, as stated, fails: in the state of `TestApp`, reached by `Run` with a
non-nil driver, a later `Run(nil)` stores nil before its call panics, and after
that panic `Name()` panics on the nil driver. -/
theorem nil_driver_after_Run_nil :
    running =
      (Run (some (testDriver 1 none none)) (importAll [fooProto, barProto] init).2).2 ∧
    (Name running).1 = .ok "test" ∧
    (Run none running).1 = .error .nilDriver ∧
    (Run none running).2.driver = none ∧
    (Name (Run none running).2).1 = .error .nilDriver :=
  ⟨rfl, rfl, rfl, rfl, rfl⟩

/-- C10, amended: `Run(d)` stores `d` in the variable `driver` before it calls
`d.Run`, so that `d.Run` executes with the package holding `d`, whatever it held
before (a nil `d` is stored too, and then the call panics), and leaves it stored
whatever `d.Run` returns. In the state after `Run(d)` every driver-delegating
function makes its call on `d` and returns what `d` answers; a later `Run(d2)`
replaces `d` by `d2`; and after any further calls of the package none of which is
`Run(nil)`, the variable is still not nil. -/
theorem Run_stores_driver (s : State) (d d2 : Driver) (ops : List Op)
    (path : List String) (wc : WindowConfig) (pc : PageConfig) (mc : MenuConfig)
    (sc : StatusMenuConfig) (c : Compo) (f : Func) :
    (Run (some d) s).2.driver = some d ∧
    (Run (some d) s).1 = .ok (d.Run s.trace (some d.id) s.components) ∧
    (Run none s) = (.error .nilDriver, { s with driver := none }) ∧
    (Run (some d) s).2.components = s.components ∧
    (Run (some d) s).2.Loggers = s.Loggers ∧
    Name (Run (some d) s).2 =
      (.ok (d.AppName (Run (some d) s).2.trace),
        (Run (some d) s).2.record (.driver d.id .AppName)) ∧
    Resources path (Run (some d) s).2 =
      (.ok (d.Resources (Run (some d) s).2.trace path),
        (Run (some d) s).2.record (.driver d.id (.Resources path))) ∧
    Storage path (Run (some d) s).2 =
      (.ok (d.Storage (Run (some d) s).2.trace path),
        (Run (some d) s).2.record (.driver d.id (.Storage path))) ∧
    NewWindow wc (Run (some d) s).2 =
      (.ok (d.NewWindow (Run (some d) s).2.trace wc).1,
        (Run (some d) s).2.record (.driver d.id (.NewWindow wc))) ∧
    NewPage pc (Run (some d) s).2 =
      (.ok (), (Run (some d) s).2.record (.driver d.id (.NewPage pc))) ∧
    NewContextMenu mc (Run (some d) s).2 =
      (.ok (d.NewContextMenu (Run (some d) s).2.trace mc).1,
        (Run (some d) s).2.record (.driver d.id (.NewContextMenu mc))) ∧
    MenuBar (Run (some d) s).2 =
      (.ok (d.MenuBar (Run (some d) s).2.trace).1,
        (Run (some d) s).2.record (.driver d.id .MenuBar)) ∧
    NewStatusMenu sc (Run (some d) s).2 =
      (.ok (d.NewStatusMenu (Run (some d) s).2.trace sc).1,
        (Run (some d) s).2.record (.driver d.id (.NewStatusMenu sc))) ∧
    Dock (Run (some d) s).2 =
      (.ok (d.Dock (Run (some d) s).2.trace).1,
        (Run (some d) s).2.record (.driver d.id .Dock)) ∧
    ElemByCompo c (Run (some d) s).2 =
      (.ok (d.ElemByCompo (Run (some d) s).2.trace c),
        (Run (some d) s).2.record (.driver d.id (.ElemByCompo c))) ∧
    CallOnUIGoroutine f (Run (some d) s).2 =
      (.ok (), (Run (some d) s).2.record (.driver d.id (.CallOnUIGoroutine f))) ∧
    (Run (some d2) (Run (some d) s).2).2.driver = some d2 ∧
    ((∀ o ∈ ops, o.isRunNil = false) →
      (execAll ops (Run (some d) s).2).driver.isSome = true) := by
  refine ⟨rfl, rfl, rfl, rfl, rfl, rfl, rfl, rfl, rfl, rfl, rfl, rfl, rfl, rfl, rfl, rfl, rfl,
    ?_⟩
  intro ho
  exact driver_execAll ops _ ho rfl

/-- Instance of the amended C10: a `Run` whose driver reports an error, then
`Name()`, a second `Run` with another driver and `Dock()`; the variable is not
nil at the end. -/
theorem Run_stores_driver_witness :
    (∀ o ∈ [Op.Name, Op.Run (some (testDriver 2 none none)), Op.Dock], o.isRunNil = false) ∧
    (Run (some (testDriver 1 (some (.other "simulated")) none)) init).1 =
      .ok (some (.other "simulated")) ∧
    (execAll [Op.Name, Op.Run (some (testDriver 2 none none)), Op.Dock]
      (Run (some (testDriver 1 (some (.other "simulated")) none)) init).2).driver.isSome =
        true :=
  ⟨by decide, rfl,
   (Run_stores_driver init (testDriver 1 (some (.other "simulated")) none)
     (testDriver 2 none none) [Op.Name, Op.Run (some (testDriver 2 none none)), Op.Dock]
     [] ⟨""⟩ ⟨""⟩ ⟨""⟩ ⟨""⟩ fooProto (.foreign 0)).2.2.2.2.2.2.2.2.2.2.2.2.2.2.2.2.2
     (by decide)⟩

/-! ## `CSSResources` -/

/-- Where the loop of `Ext` returns something, it is a suffix of the path that
starts below the index it was started from. -/
theorem extLoop_drop (l : List Char) (n : Nat) (h : extLoop l n ≠ []) :
    ∃ i, i < n ∧ extLoop l n = l.drop i := by
  induction n with
  | zero => simp [extLoop] at h
  | succ n ih =>
    by_cases h1 : isPathSeparator (l.getD n '/') = true
    · exact absurd (by rw [extLoop, if_pos h1]) h
    · by_cases h2 : l.getD n '/' = '.'
      · exact ⟨n, Nat.lt_succ_self n, by rw [extLoop, if_neg h1, if_pos h2]⟩
      · have e : extLoop l (n + 1) = extLoop l n := by rw [extLoop, if_neg h1, if_neg h2]
        rw [e] at h ⊢
        obtain ⟨i, hi, he⟩ := ih h
        exact ⟨i, Nat.lt_succ_of_lt hi, he⟩

/-- On a path that ends in `.css` the loop of `Ext` returns `.css`. -/
theorem extLoop_css (stem : List Char) :
    extLoop (stem ++ ['.', 'c', 's', 's']) (stem.length + 4) = ['.', 'c', 's', 's'] := by
  have g : ∀ k, (stem ++ ['.', 'c', 's', 's']).getD (stem.length + k) '/' =
      ['.', 'c', 's', 's'].getD k '/' := by
    intro k
    rw [List.getD_append_right _ _ _ _ (Nat.le_add_right _ _)]
    simp
  have g3 : (stem ++ ['.', 'c', 's', 's']).getD (stem.length + 3) '/' = 's' := g 3
  have g2 : (stem ++ ['.', 'c', 's', 's']).getD (stem.length + 2) '/' = 's' := g 2
  have g1 : (stem ++ ['.', 'c', 's', 's']).getD (stem.length + 1) '/' = 'c' := g 1
  have g0 : (stem ++ ['.', 'c', 's', 's']).getD stem.length '/' = '.' := g 0
  have ns : ¬ isPathSeparator 's' = true := by decide
  have nc : ¬ isPathSeparator 'c' = true := by decide
  have nd : ¬ isPathSeparator '.' = true := by decide
  have e3 : extLoop (stem ++ ['.', 'c', 's', 's']) (stem.length + 3 + 1) =
      extLoop (stem ++ ['.', 'c', 's', 's']) (stem.length + 3) := by
    rw [extLoop, g3, if_neg ns, if_neg (by decide)]
  have e2 : extLoop (stem ++ ['.', 'c', 's', 's']) (stem.length + 2 + 1) =
      extLoop (stem ++ ['.', 'c', 's', 's']) (stem.length + 2) := by
    rw [extLoop, g2, if_neg ns, if_neg (by decide)]
  have e1 : extLoop (stem ++ ['.', 'c', 's', 's']) (stem.length + 1 + 1) =
      extLoop (stem ++ ['.', 'c', 's', 's']) (stem.length + 1) := by
    rw [extLoop, g1, if_neg nc, if_neg (by decide)]
  have e0 : extLoop (stem ++ ['.', 'c', 's', 's']) (stem.length + 1) =
      (stem ++ ['.', 'c', 's', 's']).drop stem.length := by
    rw [extLoop, g0, if_neg nd, if_pos rfl]
  rw [show stem.length + 4 = stem.length + 3 + 1 from rfl, e3,
    show stem.length + 3 = stem.length + 2 + 1 from rfl, e2,
    show stem.length + 2 = stem.length + 1 + 1 from rfl, e1, e0]
  simp

/-- The spec-side test says that the path ends in `.css`. -/
theorem hasCssExt_iff (path : String) :
    hasCssExt path = true ↔ ∃ stem : List Char, path.data = stem ++ ['.', 'c', 's', 's'] := by
  constructor
  · intro h
    have hd : path.data.drop (path.data.length - 4) = ['.', 'c', 's', 's'] := by
      simpa [hasCssExt] using h
    exact ⟨path.data.take (path.data.length - 4), by rw [← hd, List.take_append_drop]⟩
  · rintro ⟨stem, hs⟩
    simp [hasCssExt, hs]

/-- `Ext` returns ".css" exactly for the paths that end in `.css`. -/
theorem Ext_css_iff (path : String) : Ext path = ".css" ↔ hasCssExt path = true := by
  rw [hasCssExt_iff]
  have hE : Ext path = ".css" ↔
      extLoop path.data path.data.length = ['.', 'c', 's', 's'] := by
    constructor
    · intro h
      exact congrArg String.data h
    · intro h
      show String.mk _ = String.mk ['.', 'c', 's', 's']
      rw [h]
  rw [hE]
  constructor
  · intro h
    obtain ⟨i, hi, he⟩ := extLoop_drop path.data path.data.length (by rw [h]; simp)
    refine ⟨path.data.take i, ?_⟩
    rw [← h, he, List.take_append_drop]
  · rintro ⟨stem, hs⟩
    have := extLoop_css stem
    rw [hs]
    simpa using this

/-- The walk with `walker` collects, after what was collected before, the css
paths of the invocations that come before the first walk error. -/
theorem Walk_walker (vs : List Visit) (acc : List String) :
    (Walk walker vs acc).1 = acc ++ (vs.takeWhile Visit.isEntry).filterMap cssPath := by
  induction vs generalizing acc with
  | nil => simp [Walk]
  | cons v vs ih =>
    cases v with
    | failed path info err => simp [Walk, walker, Visit.isEntry]
    | entry path info =>
      by_cases hd : info.IsDir = true
      · simp [Walk, walker, Visit.isEntry, cssPath, hd, ih]
      · by_cases he : Ext path = ".css"
        · have hc := (Ext_css_iff path).mp he
          simp [Walk, walker, Visit.isEntry, cssPath, hd, he, hc, ih]
        · have hc : hasCssExt path = false := by
            cases hb : hasCssExt path with
            | false => rfl
            | true => exact absurd ((Ext_css_iff path).mpr hb) he
          simp [Walk, walker, Visit.isEntry, cssPath, hd, he, hc, ih]

/-- C8: with a driver set, `CSSResources` returns normally, in walk order, exactly
the paths of the entries that the walk of `Resources("css")` visits before its
first error and that are not directories and have the extension ".css" exactly,
that is, end in `.css`, which is when `filepath.Ext` returns ".css"; the walk
error is not reported. The only call made on the driver is `Resources("css")`. -/
theorem CSSResources_lists_css_files (fs : String → List Visit) (s : State) (d : Driver)
    (h : s.driver = some d) :
    (CSSResources fs s).1 =
      .ok (((fs (d.Resources s.trace ["css"])).takeWhile Visit.isEntry).filterMap cssPath) ∧
    (CSSResources fs s).2 = s.record (.driver d.id (.Resources ["css"])) ∧
    (∀ path info, cssPath (.entry path info) =
      if info.IsDir = false ∧ hasCssExt path = true then some path else none) ∧
    (∀ path info err, cssPath (.failed path info err) = none) ∧
    (∀ path, hasCssExt path = true ↔
      ∃ stem : List Char, path.data = stem ++ ['.', 'c', 's', 's']) ∧
    (∀ path, Ext path = ".css" ↔
      ∃ stem : List Char, path.data = stem ++ ['.', 'c', 's', 's']) := by
  refine ⟨?_, ?_, ?_, ?_, ?_, ?_⟩
  · simp [CSSResources, Resources, h, Walk_walker]
  · simp [CSSResources, Resources, h]
  · intro path info
    by_cases hd : info.IsDir = true <;> by_cases he : hasCssExt path = true <;>
      simp [cssPath, hd, he]
  · intro path info err
    rfl
  · exact hasCssExt_iff
  · intro path
    rw [Ext_css_iff, hasCssExt_iff]

/-- Instance of C8 on the file tree of `TestApp` (the css files of the directory
and of its sub-directory are returned, `test.scss` and the directories are not),
on a tree with several dots in its names (`a.min.css`, `print.css` inside the
directory `old.css` and `theme.css` are returned; `README.md`, the file `css`,
the directory `old.css`, `x.scss` and `style.css.bak` are not), and on a missing
directory. -/
theorem CSSResources_lists_css_files_witness :
    running.driver = some (testDriver 1 none none) ∧
    (CSSResources testTree running).1 =
      .ok ["resources/css/sub/sub.css", "resources/css/test.css"] ∧
    (CSSResources dottedTree running).1 =
      .ok ["resources/css/a.min.css", "resources/css/old.css/print.css",
        "resources/css/theme.css"] ∧
    (CSSResources missingTree running).1 = .ok [] ∧
    Ext "resources/css/test.scss" = ".scss" ∧
    Ext "resources/css/a.min.css" = ".css" ∧
    Ext "resources/css/style.css.bak" = ".bak" ∧
    Ext "resources/css/README.md" = ".md" ∧
    Ext "resources/old.css/css" = "" :=
  ⟨rfl,
   (CSSResources_lists_css_files testTree running (testDriver 1 none none) rfl).1.trans rfl,
   (CSSResources_lists_css_files dottedTree running (testDriver 1 none none) rfl).1.trans rfl,
   (CSSResources_lists_css_files missingTree running (testDriver 1 none none) rfl).1.trans rfl,
   by decide, by decide, by decide, by decide, by decide⟩

theorem toLower_ofNat (n : Nat) (h1 : 65 ≤ n) (h2 : n ≤ 90) :
    (Char.ofNat (n + 32)).toLower = Char.ofNat (n + 32) := by
  interval_cases n <;> decide

theorem toLower_toLower (c : Char) : c.toLower.toLower = c.toLower := by
  by_cases h : c.toNat ≥ 65 ∧ c.toNat ≤ 90
  · have e : c.toLower = Char.ofNat (c.toNat + 32) := by
      simp only [Char.toLower]; rw [if_pos h]
    rw [e]; exact toLower_ofNat _ h.1 h.2
  · have e : c.toLower = c := by
      simp only [Char.toLower]; rw [if_neg h]
    rw [e, e]

theorem normalize_idem (t : String) : normalize (normalize t) = normalize t := by
  unfold normalize
  simp only [List.map_map]
  congr 1
  apply List.map_congr_left
  intro c _
  exact toLower_toLower c

theorem lookup_filter_ne (l : List (String × String)) (k a : String) (h : k ≠ a) :
    (l.filter (fun d => d.1 != a)).lookup k = l.lookup k := by
  induction l with
  | nil => rfl
  | cons x l ih =>
    obtain ⟨x1, x2⟩ := x
    by_cases hx : x1 = a
    · subst hx
      have hk : (k == x1) = false := by simpa using h
      rw [List.filter_cons_of_neg (by simp), ih]
      simp [List.lookup, hk]
    · rw [List.filter_cons_of_pos (by simpa using hx)]
      by_cases hk : k = x1
      · subst hk
        simp [List.lookup]
      · have hk1 : (k == x1) = false := by simpa using hk
        simp [List.lookup, hk1, ih]

/-- Lookup in the descriptor table after a successful registration. -/
theorem lookup_Register (f f1 : Factory) (t id : String) (r : Ref) (k : String)
    (h : f.Register (.ptr t r) = .ok (id, f1)) :
    id = normalize t ∧ f1.index = f.index ∧ f1.made = f.made ∧
    f1.descriptors.lookup k =
      if k = normalize t then some t else f.descriptors.lookup k := by
  simp only [Factory.Register, Except.ok.injEq, Prod.mk.injEq] at h
  obtain ⟨h1, h2⟩ := h
  subst h1 h2
  refine ⟨rfl, rfl, rfl, ?_⟩
  by_cases hk : k = normalize t
  · subst hk
    simp [List.lookup]
  · have : (k == normalize t) = false := by simpa using hk
    simp [List.lookup, this, hk, lookup_filter_ne _ _ _ hk]

theorem Import_ok (c : Compo) (s s1 : State) (h : Import c s = (.ok (), s1)) :
    ∃ t r id f, c = .ptr t r ∧ s.components.Register c = .ok (id, f) ∧
      s1 = { s with components := f } := by
  cases c with
  | val t => simp [Import, Factory.Register] at h
  | ptr t r =>
    refine ⟨t, r, normalize t, _, rfl, rfl, ?_⟩
    simp [Import, Factory.Register] at h
    exact h.symm

theorem importAll_cons_ok (c : Compo) (cs : List Compo) (s s2 : State)
    (h : importAll (c :: cs) s = (.ok (), s2)) :
    ∃ s1, Import c s = (.ok (), s1) ∧ importAll cs s1 = (.ok (), s2) := by
  simp only [importAll] at h
  rcases hI : Import c s with ⟨r, s1⟩
  rw [hI] at h
  cases r with
  | error p => simp at h
  | ok u => exact ⟨s1, rfl, h⟩

theorem importAll_append_ok (a b : List Compo) (s s2 : State)
    (h : importAll (a ++ b) s = (.ok (), s2)) :
    ∃ s1, importAll a s = (.ok (), s1) ∧ importAll b s1 = (.ok (), s2) := by
  induction a generalizing s with
  | nil => exact ⟨s, rfl, h⟩
  | cons c a ih =>
    obtain ⟨s1, h1, h2⟩ := importAll_cons_ok c (a ++ b) s s2 h
    obtain ⟨s3, h3, h4⟩ := ih s1 h2
    refine ⟨s3, ?_, h4⟩
    simp only [importAll, h1]
    exact h3

/-- Imports change neither the index nor the construction count, and they keep
the descriptor of a type that no later import replaces. -/
theorem importAll_keeps (t : String) (post : List Compo) (s s1 : State)
    (h : importAll post s = (.ok (), s1))
    (hlast : ∀ c ∈ post, normalize c.typ = normalize t → c.typ = t)
    (hl : s.components.descriptors.lookup (normalize t) = some t) :
    s1.components.descriptors.lookup (normalize t) = some t := by
  induction post generalizing s with
  | nil =>
    simp only [importAll, Prod.mk.injEq] at h
    rw [← h.2]; exact hl
  | cons c post ih =>
    obtain ⟨s2, h1, h2⟩ := importAll_cons_ok c post s s1 h
    obtain ⟨t1, r1, id, f, hc, hr, hs⟩ := Import_ok c s s2 h1
    subst hc
    apply ih s2 h2 (fun c hc => hlast c (List.mem_cons_of_mem _ hc))
    have := (lookup_Register _ _ _ _ _ (normalize t) hr).2.2.2
    subst hs
    simp only
    rw [this]
    by_cases he : normalize t = normalize t1
    · have := hlast (.ptr t1 r1) (List.mem_cons_self _ _) he.symm
      simp only [Compo.typ] at this
      subst this
      simp
    · simp [he, hl]

theorem importAll_index (cs : List Compo) (s s1 : State)
    (h : importAll cs s = (.ok (), s1)) :
    s1.components.index = s.components.index ∧ s1.components.made = s.components.made ∧
    s1.trace = s.trace ∧ s1.driver = s.driver ∧ s1.Loggers = s.Loggers := by
  induction cs generalizing s with
  | nil =>
    simp only [importAll, Prod.mk.injEq] at h
    rw [← h.2]; simp
  | cons c cs ih =>
    obtain ⟨s2, h1, h2⟩ := importAll_cons_ok c cs s s1 h
    obtain ⟨t1, r1, id, f, hc, hr, hs⟩ := Import_ok c s s2 h1
    subst hc
    have := lookup_Register _ _ _ _ _ "" hr
    have ih2 := ih s2 h2
    subst hs
    simp only at ih2
    rw [this.2.1, this.2.2.1] at ih2
    exact ih2

/-- Well-formedness is an invariant of the factory: it holds for the factory of
`init()` and is kept by `Register` and by `NewComponent`. -/
theorem WF_invariant (f f1 : Factory) (c inst : Compo) (name id : String) (h : f.WF) :
    init.components.WF ∧
    (f.Register c = .ok (id, f1) → f1.WF) ∧
    (f.NewComponent name = .ok (inst, id, f1) → f1.WF) := by
  refine ⟨?_, ?_, ?_⟩
  · intro t n id0 hmem
    simp [init, ConcurrentFactory, NewFactory] at hmem
  · intro hr
    cases c with
    | val t => simp [Factory.Register] at hr
    | ptr t r =>
      obtain ⟨_, hi, hm, _⟩ := lookup_Register f f1 t id r "" hr
      intro t0 n id0 hmem
      rw [hi] at hmem
      rw [hm]
      exact h t0 n id0 hmem
  · intro hn
    unfold Factory.NewComponent at hn
    cases hl : f.descriptors.lookup (normalize name) with
    | none => simp [hl] at hn
    | some t =>
      simp only [hl, Except.ok.injEq, Prod.mk.injEq] at hn
      obtain ⟨_, _, hf⟩ := hn
      subst hf
      intro t0 n id0 hmem
      show n < f.made + 1
      simp only [List.mem_cons, Prod.mk.injEq, Compo.ptr.injEq, Ref.made.injEq] at hmem
      rcases hmem with ⟨⟨_, hn⟩, _⟩ | hmem
      · omega
      · exact Nat.lt_succ_of_lt (h _ _ _ hmem)

/-- C4, as stated, fails: after `Import(&tests.Foo{})` and `Import(&tests.FOO{})`,
both of which succeed, the factory that `Run` hands to the driver answers
`NewComponent(identifier(tests.Foo))` with an instance of `tests.FOO`, not of
`tests.Foo`. -/
theorem NewComponent_after_colliding_imports :
    importAll [fooProto, capsProto] init = (.ok (), collided) ∧
    (Run (some (testDriver 1 none none)) collided).2.trace =
      [.driver 1 (.Run { descriptors := [("tests.foo", "tests.FOO")], index := [], made := 0 })] ∧
    normalize fooProto.typ = "tests.foo" ∧
    Factory.NewComponent { descriptors := [("tests.foo", "tests.FOO")], index := [], made := 0 }
        (normalize fooProto.typ) =
      .ok (.ptr "tests.FOO" (.made 0), "tests.foo",
        { descriptors := [("tests.foo", "tests.FOO")],
          index := [(.ptr "tests.FOO" (.made 0), "tests.foo")], made := 1 }) ∧
    (Compo.ptr "tests.FOO" (.made 0)).typ ≠ fooProto.typ :=
  ⟨rfl, by decide, by decide, rfl, by decide⟩

/-- C4, amended: let the imports `pre`, `&T{}`, `post` all succeed, in this order,
from a state with a well-formed factory, and let no import after `&T{}` be of a
different type with the identifier of `T`. Then `Run` hands the package-level
factory to the driver, and on that factory `NewComponent(identifier(T))` succeeds:
it returns a pointer to a new instance of `T`, one the factory has not constructed
before, with the identifier of `T`, and `Identifier` on that instance returns the
same identifier. -/
theorem NewComponent_of_last_import (s s1 : State) (pre post : List Compo) (t : String)
    (r : Ref) (d : Driver)
    (hwf : s.components.WF)
    (himp : importAll (pre ++ Compo.ptr t r :: post) s = (.ok (), s1))
    (hlast : ∀ c ∈ post, normalize c.typ = normalize t → c.typ = t) :
    (Run (some d) s1).2.trace = s1.trace ++ [.driver d.id (.Run s1.components)] ∧
    ∃ f1 : Factory,
      s1.components.NewComponent (normalize t) =
        .ok (.ptr t (.made s1.components.made), normalize t, f1) ∧
      (∀ id, (Compo.ptr t (.made s1.components.made), id) ∉ s1.components.index) ∧
      f1.Identifier (.ptr t (.made s1.components.made)) = .ok (normalize t) ∧
      f1.WF := by
  refine ⟨rfl, ?_⟩
  obtain ⟨s2, _, h2⟩ := importAll_append_ok pre _ s s1 himp
  obtain ⟨s3, h3, h4⟩ := importAll_cons_ok _ post s2 s1 h2
  obtain ⟨t1, r1, id, f, hc, hr, hs⟩ := Import_ok _ s2 s3 h3
  have hl3 : s3.components.descriptors.lookup (normalize t) = some t := by
    have := (lookup_Register _ _ _ _ _ (normalize t) hr).2.2.2
    subst hs
    simp only
    rw [this]
    simp
  have hl := importAll_keeps t post s3 s1 h4 hlast hl3
  obtain ⟨hi, hm, _⟩ := importAll_index _ s s1 himp
  have hwf1 : s1.components.WF := by
    intro t0 n id0 hmem
    rw [hi] at hmem
    rw [hm]
    exact hwf t0 n id0 hmem
  refine ⟨{ s1.components with
      index := (.ptr t (.made s1.components.made), normalize t) :: s1.components.index,
      made := s1.components.made + 1 }, ?_, ?_, ?_, ?_⟩
  · simp only [Factory.NewComponent, normalize_idem, hl]
  · intro id0 hmem
    exact absurd (hwf1 _ _ _ hmem) (Nat.lt_irrefl _)
  · simp [Factory.Identifier, List.lookup]
  · intro t0 n id0 hmem
    simp only [List.mem_cons, Prod.mk.injEq, Compo.ptr.injEq, Ref.made.injEq] at hmem
    show n < s1.components.made + 1
    rcases hmem with ⟨⟨_, hn⟩, _⟩ | hmem
    · omega
    · exact Nat.lt_succ_of_lt (hwf1 _ _ _ hmem)

/-- Instance of the amended C4 for `TestApp`: after `Import(&tests.Foo{})` and
`Import(&tests.Bar{})`, the identifier "tests.foo" yields an instance of
`tests.Foo`. -/
theorem NewComponent_of_last_import_witness :
    init.components.WF ∧
    importAll ([] ++ Compo.ptr "tests.Foo" (.app 0) :: [barProto]) init =
      (.ok (), (importAll [fooProto, barProto] init).2) ∧
    (∀ c ∈ [barProto], normalize c.typ = normalize "tests.Foo" → c.typ = "tests.Foo") ∧
    normalize "tests.Foo" = "tests.foo" ∧
    ∃ f1 : Factory,
      (importAll [fooProto, barProto] init).2.components.NewComponent (normalize "tests.Foo") =
        .ok (.ptr "tests.Foo"
          (.made (importAll [fooProto, barProto] init).2.components.made),
          normalize "tests.Foo", f1) ∧
      (∀ id, (Compo.ptr "tests.Foo"
          (.made (importAll [fooProto, barProto] init).2.components.made), id) ∉
        (importAll [fooProto, barProto] init).2.components.index) ∧
      f1.Identifier (.ptr "tests.Foo"
        (.made (importAll [fooProto, barProto] init).2.components.made)) =
          .ok (normalize "tests.Foo") ∧
      f1.WF :=
  ⟨by intro t n id h; simp [init, ConcurrentFactory, NewFactory] at h,
   rfl,
   by decide,
   by decide,
   (NewComponent_of_last_import init (importAll [fooProto, barProto] init).2 [] [barProto]
     "tests.Foo" (.app 0) (testDriver 1 none none)
     (by intro t n id h; simp [init, ConcurrentFactory, NewFactory] at h)
     rfl (by decide)).2⟩

/-! ## Order of the `Render` calls -/

theorem getElem?_middle {α : Type} (l1 l2 : List α) (x : α) :
    (l1 ++ x :: l2)[l1.length]? = some x := by
  induction l1 with
  | nil => simp
  | cons a l1 ih => simpa using ih

/-- A `Render` call adds its closure behind the pending ones. -/
theorem After_render (s : State) (d : Driver) (ran waiting : List Compo) (u : UI) (c : Compo)
    (h : u.After s d ran waiting) :
    (u.act (.render c)).After s d ran (waiting ++ [c]) := by
  obtain ⟨h1, h2, h3, h4, h5⟩ := h
  refine ⟨?_, ?_, ?_, ?_, ?_⟩
  · simp [UI.act, Render, CallOnUIGoroutine, h1]
  · simp [UI.act, Render, CallOnUIGoroutine, h1, submitted_append, h2]
    simp [submitted]
  · simp [UI.act, h3]
  · simp [UI.act, Render, CallOnUIGoroutine, h1, renders_append, h4]
    simp [renders]
  · simp [UI.act, Render, CallOnUIGoroutine, h1, h5]
    omega

/-- A step of the UI goroutine executes the oldest pending closure. -/
theorem After_step (s : State) (d : Driver) (ran waiting : List Compo) (u : UI) (c : Compo)
    (h : u.After s d ran (c :: waiting)) :
    u.step.After s d (ran ++ [c]) waiting := by
  obtain ⟨h1, h2, h3, h4, h5⟩ := h
  have hget : (submitted u.app.trace)[u.done]? = some (Func.render c) := by
    rw [h2, h3, List.map_append, ← List.append_assoc, List.map_cons]
    have := getElem?_middle (submitted s.trace ++ ran.map Func.render)
      (waiting.map Func.render) (Func.render c)
    simpa using this
  have hstep : u.step = { app := u.app.record (.driver d.id (.Render c)), done := u.done + 1 } := by
    simp [UI.step, hget, Func.call, renderBody, h1]
  rw [hstep]
  refine ⟨?_, ?_, ?_, ?_, ?_⟩
  · simpa using h1
  · simp [submitted_append, h2]
    simp [submitted]
  · simp [h3]
    omega
  · simp [renders_append, h4]
    simp [renders]
  · simp [h5]
    omega

/-- With nothing pending, a step of the UI goroutine does nothing. -/
theorem step_idle (s : State) (d : Driver) (ran : List Compo) (u : UI)
    (h : u.After s d ran []) : u.step = u := by
  obtain ⟨_, h2, h3, _, _⟩ := h
  have hget : (submitted u.app.trace)[u.done]? = none := by
    rw [List.getElem?_eq_none_iff, h2, h3]
    simp
  simp [UI.step, hget]

theorem After_run (s : State) (d : Driver) (sched : List Action) (ran waiting : List Compo)
    (u : UI) (h : u.After s d ran waiting) :
    ∃ ran1 waiting1, (u.run sched).After s d ran1 waiting1 ∧
      ran1 ++ waiting1 = ran ++ waiting ++ sched.filterMap Action.compo := by
  induction sched generalizing ran waiting u with
  | nil => exact ⟨ran, waiting, h, by simp⟩
  | cons a sched ih =>
    cases a with
    | render c =>
      obtain ⟨r1, w1, hA, he⟩ := ih ran (waiting ++ [c]) (u.act (.render c))
        (After_render s d ran waiting u c h)
      exact ⟨r1, w1, hA, by simp [he, Action.compo]⟩
    | tick =>
      cases waiting with
      | nil =>
        have hs : u.act .tick = u := step_idle s d ran u h
        obtain ⟨r1, w1, hA, he⟩ := ih ran [] u h
        refine ⟨r1, w1, ?_, by simp [he, Action.compo]⟩
        simpa [UI.run, hs] using hA
      | cons c waiting =>
        obtain ⟨r1, w1, hA, he⟩ := ih (ran ++ [c]) waiting (u.act .tick)
          (After_step s d ran waiting u c h)
        exact ⟨r1, w1, hA, by simp [he, Action.compo]⟩

theorem After_drain (s : State) (d : Driver) (fuel : Nat) (ran waiting : List Compo) (u : UI)
    (h : u.After s d ran waiting) (hf : waiting.length ≤ fuel) :
    (u.drain fuel).After s d (ran ++ waiting) [] := by
  induction fuel generalizing ran waiting u with
  | zero =>
    have : waiting = [] := List.length_eq_zero.mp (Nat.le_zero.mp hf)
    subst this
    simpa [UI.drain] using h
  | succ fuel ih =>
    cases waiting with
    | nil =>
      have hs := step_idle s d ran u h
      have := ih ran [] u h (Nat.zero_le _)
      simpa [UI.drain, hs] using this
    | cons c waiting =>
      have := ih (ran ++ [c]) waiting u.step (After_step s d ran waiting u c h)
        (by simpa using hf)
      simpa [UI.drain] using this

/-- C7: let a driver be set and let its `CallOnUIGoroutine` execute the submitted
closures one at a time in submission order, with nothing pending at the start. If
`Render(c1)`, ..., `Render(cn)` are called in this order, the steps of the UI
goroutine falling anywhere in between, then once the UI goroutine has taken enough
further steps the calls `driver.Render` made are exactly `driver.Render(c1)`, ...,
`driver.Render(cn)`, in this order, each once; the only other calls on the driver
are the `n` submissions, and nothing is left pending. -/
theorem Render_calls_in_order (s : State) (d : Driver) (cs : List Compo)
    (sched : List Action) (fuel : Nat)
    (hd : s.driver = some d)
    (hs : sched.filterMap Action.compo = cs)
    (hf : cs.length ≤ fuel) :
    renders (((UI.mk s (submitted s.trace).length).run sched).drain fuel).app.trace =
      renders s.trace ++ cs.map (fun c => (d.id, c)) ∧
    submitted (((UI.mk s (submitted s.trace).length).run sched).drain fuel).app.trace =
      submitted s.trace ++ cs.map Func.render ∧
    (((UI.mk s (submitted s.trace).length).run sched).drain fuel).app.trace.length =
      s.trace.length + 2 * cs.length ∧
    (((UI.mk s (submitted s.trace).length).run sched).drain fuel).pending = 0 := by
  have h0 : (UI.mk s (submitted s.trace).length).After s d [] [] :=
    ⟨hd, by simp, by simp, by simp, by simp⟩
  obtain ⟨r1, w1, hA, he⟩ := After_run s d sched [] [] _ h0
  have hcs : r1 ++ w1 = cs := by simpa [hs] using he
  have hw : w1.length ≤ fuel := by
    have : (r1 ++ w1).length = cs.length := by rw [hcs]
    simp at this
    omega
  have hD := After_drain s d fuel r1 w1 _ hA hw
  rw [hcs] at hD
  obtain ⟨_, h2, h3, h4, h5⟩ := hD
  refine ⟨h4, ?_, ?_, ?_⟩
  · simpa using h2
  · simpa using h5
  · simp [UI.pending, h2, h3]

/-- Instance of C7 in the state of `TestApp`: `Render(&tests.Foo{})`, two steps of
the UI goroutine, `Render(&tests.Bar{})`, then two more steps. -/
theorem Render_calls_in_order_witness :
    running.driver = some (testDriver 1 none none) ∧
    [Action.render fooProto, .tick, .tick, .render barProto].filterMap Action.compo =
      [fooProto, barProto] ∧
    [fooProto, barProto].length ≤ 2 ∧
    renders (((UI.mk running (submitted running.trace).length).run
      [Action.render fooProto, .tick, .tick, .render barProto]).drain 2).app.trace =
      [(1, fooProto), (1, barProto)] :=
  ⟨rfl, by decide, by decide,
   (Render_calls_in_order running (testDriver 1 none none) [fooProto, barProto]
     [Action.render fooProto, .tick, .tick, .render barProto] 2 rfl (by decide)
     (by decide)).1.trans (by decide)⟩

end App
